import Mathlib

/-!
# Verification of the batched multi-camera sensor pipeline

A shallow embedding of `omni/isaac/orbit/sensors/camera/camera.py` (the
`Camera` sensor class) together with models of the narrow external
interfaces it consumes (scene-graph view, capture/annotator backend,
orientation-convention converter), and theorems settling the frozen
claims about this code.

Conventions of the embedding:
* scalar (float) values are modelled by an arbitrary field `K` in the
  definitions (keeping them executable); the claim theorems instantiate
  `K := ℝ`, with `Real.arctan` and `Real.tan` for the math-library
  calls;
* rendered payload values are modelled by `ℤ` tagged with a device
  string (`TorchTensor`);
* camera orientations are modelled by their 3×3 rotation matrices
  (the quaternion stored by the code is the standard encoding of such a
  matrix; the repository's own convention converter round-trips through
  rotation matrices);
* Python exceptions are modelled by `Except` / explicit error flags, and
  in-place tensor mutation by explicit state passing.
-/

/-- A 3-vector (positions, axis directions). -/
structure Vec3 (K : Type) where
  x : K
  y : K
  z : K
deriving DecidableEq

/-- A 3×3 matrix, row-major fields (orientations, intrinsics). -/
structure Mat3 (K : Type) where
  m00 : K
  m01 : K
  m02 : K
  m10 : K
  m11 : K
  m12 : K
  m20 : K
  m21 : K
  m22 : K
deriving DecidableEq

section Geometry

variable {K : Type} [Field K]

/-- Matrix product of two 3×3 matrices. -/
def Mat3.mul (A B : Mat3 K) : Mat3 K where
  m00 := A.m00 * B.m00 + A.m01 * B.m10 + A.m02 * B.m20
  m01 := A.m00 * B.m01 + A.m01 * B.m11 + A.m02 * B.m21
  m02 := A.m00 * B.m02 + A.m01 * B.m12 + A.m02 * B.m22
  m10 := A.m10 * B.m00 + A.m11 * B.m10 + A.m12 * B.m20
  m11 := A.m10 * B.m01 + A.m11 * B.m11 + A.m12 * B.m21
  m12 := A.m10 * B.m02 + A.m11 * B.m12 + A.m12 * B.m22
  m20 := A.m20 * B.m00 + A.m21 * B.m10 + A.m22 * B.m20
  m21 := A.m20 * B.m01 + A.m21 * B.m11 + A.m22 * B.m21
  m22 := A.m20 * B.m02 + A.m21 * B.m12 + A.m22 * B.m22

/-- Transpose of a 3×3 matrix (inverse of an orthonormal one). -/
def Mat3.transpose (A : Mat3 K) : Mat3 K where
  m00 := A.m00
  m01 := A.m10
  m02 := A.m20
  m10 := A.m01
  m11 := A.m11
  m12 := A.m21
  m20 := A.m02
  m21 := A.m12
  m22 := A.m22

/-- Identity matrix. -/
def Mat3.id : Mat3 K := ⟨1, 0, 0, 0, 1, 0, 0, 0, 1⟩

/-- Zero matrix (freshly created buffers hold zeros). -/
def Mat3.zero : Mat3 K := ⟨0, 0, 0, 0, 0, 0, 0, 0, 0⟩

/-- Zero vector. -/
def Vec3.zero : Vec3 K := ⟨0, 0, 0⟩

/-- Cross product of two 3-vectors. -/
def Vec3.cross (a b : Vec3 K) : Vec3 K :=
  ⟨a.y * b.z - a.z * b.y, a.z * b.x - a.x * b.z, a.x * b.y - a.y * b.x⟩

/-- Build a matrix from its three columns. -/
def Mat3.ofCols (c0 c1 c2 : Vec3 K) : Mat3 K :=
  ⟨c0.x, c1.x, c2.x, c0.y, c1.y, c2.y, c0.z, c1.z, c2.z⟩

end Geometry

/-- The three orientation conventions named by the pipeline:
`opengl` (the backend's native one), `ros` (robotics), `world`. -/
inductive Convention where
  | opengl
  | ros
  | world
deriving DecidableEq

section Conventions

variable {K : Type} [Field K]

/-- Modelled from the spec: the forward axis of each convention (§4.1 —
optical/opengl: forward = −Z; robotics/ros: forward = +Z;
world: forward = +X). -/
def Convention.forwardAxis : Convention → Vec3 K
  | .opengl => ⟨0, 0, -1⟩
  | .ros => ⟨0, 0, 1⟩
  | .world => ⟨1, 0, 0⟩

/-- Modelled from the spec: the up axis of each convention (§4.1 —
optical/opengl: up = +Y; robotics/ros: up = −Y; world: up = +Z). -/
def Convention.upAxis : Convention → Vec3 K
  | .opengl => ⟨0, 1, 0⟩
  | .ros => ⟨0, -1, 0⟩
  | .world => ⟨0, 0, 1⟩

/-- The camera-frame basis of a convention: columns are
(right = forward × up, up, forward). -/
def Convention.basis (c : Convention) : Mat3 K :=
  Mat3.ofCols (Vec3.cross c.forwardAxis c.upAxis) c.upAxis c.forwardAxis

/-- Modelled from the spec: `convert_orientation_convention` of
`camera/utils.py` (code of this repository not under `src/`). Per §4.1
the conversion between two conventions is a fixed orthonormal rotation
composition per convention pair; an orientation `q` given in convention
`origin` is re-expressed in convention `target` by right-multiplying
with the fixed rotation `basis origin · (basis target)ᵀ` (equal
conventions return the input unchanged). For the pairs the code
exercises this reproduces the repository's fixed matrices
(`opengl↔ros`: `diag(1,−1,−1)`; `opengl→world`: the transpose of the
XYZ-Euler (π/2, −π/2, 0) rotation). -/
def convertOrientationConvention (q : Mat3 K) (origin target : Convention) : Mat3 K :=
  if origin = target then q
  else q.mul ((origin.basis).mul (target.basis).transpose)

end Conventions

/-! ## Capture backend payloads and processing -/

/-- A tensor-like payload value tagged with the device it lives on
(stands in for a `torch.Tensor`; the numeric content is abstracted to a
single integer sample). -/
structure TorchTensor where
  val : ℤ
  device : String
deriving DecidableEq

/-- The two payload shapes the capture backend's `get_data` may return:
a plain payload, or a structured mapping (`dict`) carrying a `data`
field and an `info` field (`Camera._process_annotator_output`,
camera.py:541-556). -/
inductive AnnotatorOutput where
  | plain (data : TorchTensor)
  | dict (data : TorchTensor) (info : ℤ)
deriving DecidableEq

/-- Modelled from the spec: `convert_to_torch` of `utils/array.py` (code
of this repository not under `src/`) — §5: data supplied from any
location is transparently staged onto the batch's designated compute
device before use. -/
def convertToTorch (data : TorchTensor) (device : String) : TorchTensor :=
  { val := data.val, device := device }

/-- `Camera._process_annotator_output` (camera.py:541-556): a `dict`
payload is split into its `data` and `info` fields; any other payload is
taken as the data itself with no info; the data is converted to a torch
tensor on `self.device`. -/
def processAnnotatorOutput (device : String) (output : AnnotatorOutput) :
    TorchTensor × Option ℤ :=
  match output with
  | .dict data info => (convertToTorch data device, some info)
  | .plain data => (convertToTorch data device, none)

/-- The data component a payload carries, as claim C9 describes it: the
`data` field of a structured mapping, or the payload itself. -/
def payloadData : AnnotatorOutput → TorchTensor
  | .dict data _ => data
  | .plain data => data

/-- The info component a payload carries, as claim C9 describes it: the
`info` field of a structured mapping, or no info. -/
def payloadInfo : AnnotatorOutput → Option ℤ
  | .dict _ info => some info
  | .plain _ => none

/-! ## Lens state and intrinsic matrices -/

/-- The USD camera lens attributes read during a refresh
(`GetFocalLengthAttr`, `GetHorizontalApertureAttr`). -/
structure LensParams (K : Type) where
  focal_length : K
  horizontal_aperture : K
deriving DecidableEq

/-- The math-library calls (`math.atan`, `math.tan`) used by
`Camera._update_intrinsic_matrices`, abstracted; the claim theorems
instantiate them with `Real.arctan` and `Real.tan`. -/
structure FloatMath (K : Type) where
  atan : K → K
  tan : K → K

/-- The per-slot body of `Camera._update_intrinsic_matrices`
(camera.py:479-496): from the slot's current lens state compute
`fov = 2·atan(horiz_aperture / (2·focal_length))`,
`focal_px = width·0.5 / tan(fov/2)`, and overwrite entries
(0,0), (0,2), (1,1), (1,2), (2,2) of the stored matrix, leaving all
other entries as they were. -/
def updateIntrinsicEntries {K : Type} [Field K] (fm : FloatMath K)
    (prev : Mat3 K) (lens : LensParams K) (height width : ℕ) : Mat3 K :=
  let fov := 2 * fm.atan (lens.horizontal_aperture / (2 * lens.focal_length))
  let focal_px := (width : K) * 0.5 / fm.tan (fov / 2)
  { prev with
      m00 := focal_px
      m02 := (width : K) * 0.5
      m11 := focal_px
      m12 := (height : K) * 0.5
      m22 := 1 }

/-- The matrix described by claim C5, stated from the claim's words for
comparison with the code's computation:
`M[0,0] = M[1,1] = width·0.5/tan(fov/2)` with
`fov = 2·atan(horizontalAperture/(2·focalLength))`, `M[0,2] = width/2`,
`M[1,2] = height/2`, `M[2,2] = 1`, and all other entries zero. -/
def claimedIntrinsicMatrix {K : Type} [Field K] (fm : FloatMath K)
    (focalLength horizontalAperture : K) (height width : ℕ) : Mat3 K :=
  let fov := 2 * fm.atan (horizontalAperture / (2 * focalLength))
  ⟨(width : K) * 0.5 / fm.tan (fov / 2), 0, (width : K) / 2,
   0, (width : K) * 0.5 / fm.tan (fov / 2), (height : K) / 2,
   0, 0, 1⟩

/-- The parameters written to the USD camera by
`Camera.set_intrinsic_matrices`: focal length, apertures, and aperture
offsets. -/
structure USDCameraParams (K : Type) where
  focal_length : K
  horizontal_aperture : K
  vertical_aperture : K
  horizontal_aperture_offset : K
  vertical_aperture_offset : K

/-- The per-slot parameter computation of `Camera.set_intrinsic_matrices`
(camera.py:201-219): with `f_x = M[0,0]`, `c_x = M[0,2]`, `f_y = M[1,1]`,
`c_y = M[1,2]` and the chosen focal length, apertures are
`width·focal/f_x` and `height·focal/f_y`, aperture offsets
`(c_x − width/2)/f_x` and `(c_y − height/2)/f_y`. -/
def setIntrinsicParams {K : Type} [Field K] (matrix : Mat3 K)
    (focal_length : K) (height width : K) : USDCameraParams K :=
  { focal_length := focal_length
    horizontal_aperture := width * focal_length / matrix.m00
    vertical_aperture := height * focal_length / matrix.m11
    horizontal_aperture_offset := (matrix.m02 - width / 2) / matrix.m00
    vertical_aperture_offset := (matrix.m12 - height / 2) / matrix.m11 }

/-! ## The camera data record and batch state -/

/-- Key-indexed finite map used for the lazily allocated output store
(the `TensorDict` keyed by output-type name): association-list lookup. -/
def lookupKey {A : Type} : List (String × A) → String → Option A
  | [], _ => none
  | (k, v) :: rest, key => if k = key then some v else lookupKey rest key

/-- Set (replace or append) a key of the output store. -/
def setKey {A : Type} : List (String × A) → String → A → List (String × A)
  | [], key, v => [(key, v)]
  | (k, w) :: rest, key, v =>
    if k = key then (key, v) :: rest else (k, w) :: setKey rest key v

/-- The buffer stored for one output type: one `TorchTensor` per slot,
leading dimension = the list length. -/
abbrev OutputBuffer := List TorchTensor

/-- Read slot `i` of the buffer for output type `name` (if the type has
been allocated and `i` is in range). -/
def bufferSlot (output : List (String × OutputBuffer)) (name : String)
    (i : ℕ) : Option TorchTensor :=
  (lookupKey output name).bind fun buf => buf[i]?

/-- Write slot `i` of the buffer for output type `name`
(`self._data.output[name][index] = data`); a no-op if the type has no
buffer or the index is out of range, mirroring in-place tensor writes. -/
def setBufferSlot (output : List (String × OutputBuffer)) (name : String)
    (i : ℕ) (d : TorchTensor) : List (String × OutputBuffer) :=
  match lookupKey output name with
  | none => output
  | some buf => setKey output name (buf.set i d)

/-- The `CameraData` record (the fields used by the claims): world
positions `pos_w`, world orientations `quat_w_world` (stored as rotation
matrices), per-slot intrinsic matrices, the lazily allocated output
store, and the per-slot info side channel. -/
structure CameraData (K : Type) where
  pos_w : ℕ → Vec3 K
  quat_w_world : ℕ → Mat3 K
  intrinsic_matrices : ℕ → Mat3 K
  output : List (String × OutputBuffer)
  info : ℕ → String → Option ℤ

/-- The mutable per-batch state: the frame counters (`self._frame`) and
the data record (`self._data`). -/
structure CameraState (K : Type) where
  frame : ℕ → ℕ
  data : CameraData K

/-- The external scene-graph view (`XFormPrimView`): the number of
matched entities and their current world poses in the backend's native
(opengl) convention, as returned by `get_world_poses`. -/
structure ViewState (K : Type) where
  count : ℕ
  pos : ℕ → Vec3 K
  quat : ℕ → Mat3 K

/-- The static per-batch handles: designated compute device, configured
image shape, sensor count, the per-slot USD camera prims (their lens
state), and the requested output types (the keys of the annotator
registry, in registration order). -/
structure Cam (K : Type) where
  device : String
  height : ℕ
  width : ℕ
  count : ℕ
  prims : List (LensParams K)
  dataTypes : List String

/-- Lens state of slot `i` (`self._sensor_prims[i]`). -/
def Cam.lensOf {K : Type} [Field K] (cam : Cam K) (i : ℕ) : LensParams K :=
  cam.prims.getD i ⟨0, 0⟩

/-- `Camera._create_buffers` (camera.py:453-467): zeroed pose and
intrinsics buffers, an *empty* output mapping (lazy allocation), and an
info list with every entry `None`. -/
def createBuffers {K : Type} [Field K] (_cam : Cam K) : CameraState K :=
  { frame := fun _ => 0
    data :=
      { pos_w := fun _ => Vec3.zero
        quat_w_world := fun _ => Mat3.zero
        intrinsic_matrices := fun _ => Mat3.zero
        output := []
        info := fun _ _ => none } }

/-! ## Per-step update, reset, pose setting -/

/-- Sequential per-slot overwrite loop (`for i in env_ids: buf[i] = f(i, buf[i])`). -/
def overwriteSlots {A : Type} (ids : List ℕ) (f : ℕ → A → A) (cur : ℕ → A) : ℕ → A :=
  ids.foldl (fun acc i => Function.update acc i (f i (acc i))) cur

section CameraOps

variable {K : Type} [Field K]

/-- `Camera._update_intrinsic_matrices` (camera.py:469-496): for each
requested slot, read the slot's current lens state and overwrite the
slot's stored intrinsic matrix entries. -/
def updateIntrinsicMatrices (fm : FloatMath K) (cam : Cam K)
    (envIds : List ℕ) (d : CameraData K) : CameraData K :=
  { d with
      intrinsic_matrices :=
        overwriteSlots envIds
          (fun i prev => updateIntrinsicEntries fm prev (cam.lensOf i) cam.height cam.width)
          d.intrinsic_matrices }

/-- `Camera._update_poses` (camera.py:498-514): raises if the sensor has
no camera prims; otherwise pulls the current world poses of the
requested slots from the scene-graph view and stores the positions
unchanged and the orientations converted from the backend's native
`opengl` convention to the `world` convention. -/
def updatePoses (prims : List (LensParams K)) (view : ViewState K)
    (envIds : List ℕ) (d : CameraData K) : Except String (CameraData K) :=
  match prims with
  | [] => .error "Camera prim is None. Please call sim.play() first."
  | _ :: _ =>
    .ok { d with
            pos_w := fun i => if i ∈ envIds then view.pos i else d.pos_w i
            quat_w_world := fun i =>
              if i ∈ envIds then
                convertOrientationConvention (view.quat i) .opengl .world
              else d.quat_w_world i }

/-- The inner slot loop of the steady-state branch of
`Camera._update_buffers_impl` (camera.py:425-433) for one output type:
fetch each requested slot's capture (`get_data`, which may raise —
modelled by `none`), process it, and write data and info in place; on a
raise, stop, keeping all writes made so far. Returns the resulting state
and whether a capture error escaped. -/
def writeSlotsLoop (device : String) (getData : String → ℕ → Option AnnotatorOutput)
    (name : String) (d : CameraData K) : List ℕ → CameraData K × Bool
  | [] => (d, false)
  | i :: rest =>
    match getData name i with
    | none => (d, true)
    | some out =>
      let pr := processAnnotatorOutput device out
      writeSlotsLoop device getData name
        { d with
            output := setBufferSlot d.output name i pr.1
            info := Function.update d.info i (Function.update (d.info i) name pr.2) }
        rest

/-- The outer type loop of the steady-state branch of
`Camera._update_buffers_impl` (camera.py:422-433): iterate over the
annotator registry (one entry per requested output type); a capture
error aborts the whole loop, keeping all writes made so far. -/
def writeTypesLoop (device : String) (getData : String → ℕ → Option AnnotatorOutput)
    (envIds : List ℕ) (d : CameraData K) : List String → CameraData K × Bool
  | [] => (d, false)
  | name :: rest =>
    let r := writeSlotsLoop device getData name d envIds
    if r.2 then (r.1, true) else writeTypesLoop device getData envIds r.1 rest

/-- The per-type collection loop of `Camera._create_annotator_data`
(camera.py:527-537): fetch and process every slot's capture
(`self._ALL_INDICES`, not just the requested ones), accumulating the
per-slot data and storing the per-slot info; a raise aborts, discarding
the accumulated list but keeping the info written so far. -/
def collectLoop (device : String) (getData : String → ℕ → Option AnnotatorOutput)
    (name : String) (d : CameraData K) (acc : List TorchTensor) :
    List ℕ → CameraData K × Option (List TorchTensor)
  | [] => (d, some acc)
  | i :: rest =>
    match getData name i with
    | none => (d, none)
    | some out =>
      let pr := processAnnotatorOutput device out
      collectLoop device getData name
        { d with info := Function.update d.info i (Function.update (d.info i) name pr.2) }
        (acc ++ [pr.1]) rest

/-- `Camera._create_annotator_data` (camera.py:516-539): for every
requested output type, collect the captures of ALL slots and stack them
into a fresh buffer with leading dimension equal to the slot count.
Returns the resulting state and whether a capture error escaped. -/
def createAnnotatorData (device : String) (getData : String → ℕ → Option AnnotatorOutput)
    (count : ℕ) (d : CameraData K) : List String → CameraData K × Bool
  | [] => (d, false)
  | name :: rest =>
    let r := collectLoop device getData name d [] (List.range count)
    match r.2 with
    | none => (r.1, true)
    | some stacked =>
      createAnnotatorData device getData count
        { r.1 with output := setKey r.1.output name stacked } rest

/-- Which Python exception escaped a refresh, if any. -/
inductive StepError where
  | pose
  | capture
deriving DecidableEq

/-- `Camera._update_buffers_impl` (camera.py:408-433): increment the
requested slots' frame counters, recompute their intrinsics and poses,
then read the annotator data — bulk-allocating buffers for ALL types
across ALL slots when the output mapping is still empty (the first
refresh), and otherwise overwriting the requested slots in place.
An escaping exception leaves all mutations made before it. -/
def updateBuffersImpl (fm : FloatMath K) (cam : Cam K) (view : ViewState K)
    (getData : String → ℕ → Option AnnotatorOutput) (envIds : List ℕ)
    (st : CameraState K) : CameraState K × Option StepError :=
  let frame1 := fun i => if i ∈ envIds then st.frame i + 1 else st.frame i
  let d1 := updateIntrinsicMatrices fm cam envIds st.data
  match updatePoses cam.prims view envIds d1 with
  | .error _ => ({ frame := frame1, data := d1 }, some .pose)
  | .ok d2 =>
    if d2.output.isEmpty then
      let r := createAnnotatorData cam.device getData cam.count d2 cam.dataTypes
      ({ frame := frame1, data := r.1 }, if r.2 then some .capture else none)
    else
      let r := writeTypesLoop cam.device getData envIds d2 cam.dataTypes
      ({ frame := frame1, data := r.1 }, if r.2 then some .capture else none)

/-- `Camera.reset` (camera.py:312-324): resolve `None` slot indices to
all slots, recompute poses and intrinsics for the given slots, and zero
their frame counters. Output buffers are not touched. (The base-class
timestamp reset touches no field modelled here.) -/
def camReset (fm : FloatMath K) (cam : Cam K) (view : ViewState K)
    (envIds? : Option (List ℕ)) (st : CameraState K) :
    CameraState K × Option StepError :=
  let ids := envIds?.getD (List.range cam.count)
  match updatePoses cam.prims view ids st.data with
  | .error _ => (st, some .pose)
  | .ok d1 =>
    let d2 := updateIntrinsicMatrices fm cam ids d1
    ({ frame := fun i => if i ∈ ids then 0 else st.frame i, data := d2 }, none)

/-- Modelled from the spec: the external scene-graph view's
`set_world_poses` (`XFormPrimView`, outside this repository; §6
`setWorldPose` collaborator). Per the camera's documented contract
(camera.py:257-262) an absent positions/orientations argument leaves
that component of the addressed slots unchanged. -/
def viewSetWorldPoses (vs : ViewState K) (positions : Option (ℕ → Vec3 K))
    (orientations : Option (ℕ → Mat3 K)) (ids : List ℕ) : ViewState K :=
  { vs with
      pos := fun i =>
        match positions with
        | none => vs.pos i
        | some p => if i ∈ ids then p i else vs.pos i
      quat := fun i =>
        match orientations with
        | none => vs.quat i
        | some q => if i ∈ ids then q i else vs.quat i }

/-- `Camera.set_world_poses` (camera.py:238-285): resolve `None` slot
indices to all slots, convert the given orientations (if any) from the
caller's convention to the backend-native `opengl` convention, and write
the poses to the scene graph through the view. -/
def setWorldPoses (cam : Cam K) (vs : ViewState K)
    (positions : Option (ℕ → Vec3 K)) (orientations : Option (ℕ → Mat3 K))
    (envIds? : Option (List ℕ)) (convention : Convention) : ViewState K :=
  let ids := envIds?.getD (List.range cam.count)
  let orientationsGl := orientations.map
    (fun q i => convertOrientationConvention (q i) convention .opengl)
  viewSetWorldPoses vs positions orientationsGl ids

end CameraOps

/-! ## Construction and initialization pipeline -/

/-- The output types rejected by the camera class
(`Camera.UNSUPPORTED_TYPES`, camera.py:67). -/
def UNSUPPORTED_TYPES : List String :=
  ["bounding_box_2d_tight", "bounding_box_2d_loose", "bounding_box_3d"]

/-- `Camera._check_supported_data_types` (camera.py:439-451): the check
fires when the requested types intersect the unsupported set. -/
def hasUnsupportedTypes (dataTypes : List String) : Bool :=
  dataTypes.any (fun name => UNSUPPORTED_TYPES.contains name)

/-- The last `/`-separated segment of a prim path
(`cfg.prim_path.split("/")[-1]`). -/
def pathLeaf (path : String) : List Char :=
  path.toList.foldl (fun acc c => if c = '/' then [] else acc ++ [c]) []

/-- The leaf-wildcard check of `Camera.__init__` (camera.py:83-84): the
leaf is "a regex" when it fails to fully match `^[a-zA-Z0-9/_]+$`, i.e.
when it is empty or contains a character that is not ASCII alphanumeric
or underscore (a leaf segment cannot contain a slash). -/
def leafIsRegex (path : String) : Bool :=
  let leaf := pathLeaf path
  leaf.isEmpty || leaf.any (fun c => !(c.isAlphanum || c = '_'))

/-- The configuration fields of `CameraCfg` consulted by construction
and initialization. -/
structure CameraCfg where
  prim_path : String
  data_types : List String
  height : ℕ
  width : ℕ

/-- A resolved scene-graph entity: whether it is a camera-typed prim,
and its lens state. -/
structure PrimInfo (K : Type) where
  isCamera : Bool
  lens : LensParams K
deriving DecidableEq

/-- The scene-graph collaborator consumed by initialization
(`resolveEntities`): pattern to matched entities. -/
structure SceneGraph (K : Type) where
  resolve : String → List (PrimInfo K)

/-- The error classes raised by construction/initialization:
Python `RuntimeError` and `ValueError`. -/
inductive CamError where
  | runtime (msg : String)
  | value (msg : String)

/-- `Camera.__init__` composed with `Camera._initialize_impl`
(camera.py:70-113 and 330-406), in raise order: (1) leaf-wildcard prim
path — RuntimeError; (2) unsupported requested output type — ValueError;
(3) zero matching prims — RuntimeError; (4) resolved count differing
from the expected environment count — RuntimeError; (5) a resolved prim
that is not a camera — RuntimeError; otherwise the batch reaches the
ready state with its buffers created. -/
def cameraInit {K : Type} [Field K] (cfg : CameraCfg) (scene : SceneGraph K)
    (numEnvs : ℕ) (device : String) : Except CamError (Cam K) :=
  if leafIsRegex cfg.prim_path then
    .error (.runtime "Invalid prim path for the camera sensor: regex pattern in the leaf.")
  else if hasUnsupportedTypes cfg.data_types then
    .error (.value "Camera class does not support the requested sensor types.")
  else if (scene.resolve cfg.prim_path).length = 0 then
    .error (.runtime "Could not find prim with the configured path.")
  else if (scene.resolve cfg.prim_path).length ≠ numEnvs then
    .error (.runtime "Number of camera prims in the view does not match the number of environments.")
  else if (scene.resolve cfg.prim_path).any (fun p => !p.isCamera) then
    .error (.runtime "Prim at the resolved path is not a Camera.")
  else
    .ok { device := device
          height := cfg.height
          width := cfg.width
          count := (scene.resolve cfg.prim_path).length
          prims := (scene.resolve cfg.prim_path).map (fun p => p.lens)
          dataTypes := cfg.data_types }

/-- Is the result a Python `ValueError`-class failure? -/
def isValueError {A : Type} : Except CamError A → Bool
  | .error (.value _) => true
  | _ => false

/-- Is the result a Python `RuntimeError`-class failure? -/
def isRuntimeError {A : Type} : Except CamError A → Bool
  | .error (.runtime _) => true
  | _ => false

/-- Did construction/initialization reach the ready state? -/
def reachedReady {A : Type} : Except CamError A → Bool
  | .ok _ => true
  | _ => false

/-! ## Concrete instances used by witnesses and counterexamples -/

/-- Identity stand-ins for the math-library calls; used in concrete
states whose intrinsic entries are never inspected. -/
def idFM : FloatMath ℚ := ⟨fun x => x, fun x => x⟩

/-- A concrete two-slot batch requesting only `"rgb"`. -/
def camA : Cam ℚ :=
  { device := "cuda:0", height := 3, width := 4, count := 2
    prims := [⟨24, 20⟩, ⟨24, 20⟩], dataTypes := ["rgb"] }

/-- A concrete scene-graph view for `camA`. -/
def viewA : ViewState ℚ :=
  { count := 2, pos := fun _ => ⟨1, 2, 3⟩, quat := fun _ => Mat3.id }

/-- A concrete ready state for `camA` whose `"rgb"` buffer is already
allocated with previously written values. -/
def stA : CameraState ℚ :=
  { frame := fun _ => 5
    data :=
      { pos_w := fun _ => Vec3.zero
        quat_w_world := fun _ => Mat3.zero
        intrinsic_matrices := fun _ => Mat3.zero
        output := [("rgb", [⟨7, "cpu"⟩, ⟨9, "cpu"⟩])]
        info := fun _ _ => none } }

/-- A capture backend that succeeds for slot 0 and raises for every
other slot. -/
def getDataFail1 : String → ℕ → Option AnnotatorOutput :=
  fun _ i => if i = 0 then some (.plain ⟨5, "cpu"⟩) else none

/-- A capture backend that always succeeds (structured payloads). -/
def getDataAll : String → ℕ → Option AnnotatorOutput :=
  fun _ i => some (.dict ⟨(i : ℤ), "cpu"⟩ 11)

/-- A configuration with a well-formed leaf but an unsupported type. -/
def cfgGoodPathBadTypes : CameraCfg :=
  { prim_path := "/World/Camera", data_types := ["bounding_box_3d"], height := 2, width := 2 }

/-- A configuration with a wildcard leaf and an unsupported type. -/
def cfgBadPathBadTypes : CameraCfg :=
  { prim_path := "/World/Camera_[1,2]", data_types := ["bounding_box_3d"], height := 2, width := 2 }

/-- A configuration with a well-formed leaf and supported types. -/
def cfgGoodPathRGB : CameraCfg :=
  { prim_path := "/World/Camera", data_types := ["rgb"], height := 2, width := 2 }

/-- A scene graph in which no entity matches any pattern. -/
def emptyScene : SceneGraph ℚ := ⟨fun _ => []⟩

/-! ## Support lemmas -/

theorem overwriteSlots_apply {A : Type} (f : ℕ → A → A)
    (hf : ∀ i x, f i (f i x) = f i x) :
    ∀ (ids : List ℕ) (cur : ℕ → A) (j : ℕ),
      overwriteSlots ids f cur j = if j ∈ ids then f j (cur j) else cur j
  | [], cur, j => by simp [overwriteSlots]
  | i :: rest, cur, j => by
    have step : overwriteSlots (i :: rest) f cur
        = overwriteSlots rest f (Function.update cur i (f i (cur i))) := rfl
    rw [step, overwriteSlots_apply f hf rest]
    by_cases hj : j ∈ rest
    · rw [if_pos hj, if_pos (List.mem_cons.mpr (Or.inr hj))]
      rcases eq_or_ne j i with rfl | hne
      · rw [Function.update_same, hf]
      · rw [Function.update_noteq hne]
    · rw [if_neg hj]
      rcases eq_or_ne j i with rfl | hne
      · rw [Function.update_same, if_pos (List.mem_cons.mpr (Or.inl rfl))]
      · rw [Function.update_noteq hne,
          if_neg (fun hmem => (List.mem_cons.mp hmem).elim hne hj)]

theorem updateIntrinsicEntries_idem {K : Type} [Field K] (fm : FloatMath K)
    (prev : Mat3 K) (lens : LensParams K) (height width : ℕ) :
    updateIntrinsicEntries fm (updateIntrinsicEntries fm prev lens height width) lens height width
      = updateIntrinsicEntries fm prev lens height width := rfl

theorem lookupKey_setKey_self {A : Type} :
    ∀ (l : List (String × A)) (k : String) (v : A),
      lookupKey (setKey l k v) k = some v
  | [], k, v => by simp [setKey, lookupKey]
  | (k0, w) :: rest, k, v => by
    by_cases h : k0 = k
    · simp [setKey, h, lookupKey]
    · simp [setKey, h, lookupKey, lookupKey_setKey_self rest k v]

theorem lookupKey_setKey_ne {A : Type} :
    ∀ (l : List (String × A)) (k : String) (v : A) (k' : String), k' ≠ k →
      lookupKey (setKey l k v) k' = lookupKey l k'
  | [], k, v, k', h => by simp [setKey, lookupKey, Ne.symm h]
  | (k0, w) :: rest, k, v, k', h => by
    by_cases h0 : k0 = k
    · subst h0
      simp [setKey, lookupKey, Ne.symm h]
    · simp [setKey, h0, lookupKey, lookupKey_setKey_ne rest k v k' h]

theorem bufferSlot_set_ne_name (out : List (String × OutputBuffer))
    (name name' : String) (i j : ℕ) (d : TorchTensor) (h : name' ≠ name) :
    bufferSlot (setBufferSlot out name i d) name' j = bufferSlot out name' j := by
  simp only [setBufferSlot]
  cases hl : lookupKey out name with
  | none => rfl
  | some buf => simp only [bufferSlot, lookupKey_setKey_ne _ _ _ _ h]

theorem bufferSlot_set_ne_idx (out : List (String × OutputBuffer))
    (name : String) (i j : ℕ) (d : TorchTensor) (h : j ≠ i) :
    bufferSlot (setBufferSlot out name i d) name j = bufferSlot out name j := by
  simp only [setBufferSlot]
  cases hl : lookupKey out name with
  | none => rfl
  | some buf =>
    simp only [bufferSlot, lookupKey_setKey_self, hl, Option.some_bind,
      List.getElem?_set_ne (Ne.symm h)]

theorem bufferSlot_set_self (out : List (String × OutputBuffer))
    (name : String) (i : ℕ) (d : TorchTensor) :
    bufferSlot (setBufferSlot out name i d) name i = some d ∨
    bufferSlot (setBufferSlot out name i d) name i = bufferSlot out name i := by
  cases hl : lookupKey out name with
  | none =>
    refine Or.inr ?_
    simp only [setBufferSlot, hl]
  | some buf =>
    by_cases hlen : i < buf.length
    · refine Or.inl ?_
      simp only [setBufferSlot, hl, bufferSlot, lookupKey_setKey_self,
        Option.some_bind, List.getElem?_set_self hlen]
    · refine Or.inr ?_
      simp only [setBufferSlot, hl, List.set_eq_of_length_le (Nat.le_of_not_lt hlen),
        bufferSlot, lookupKey_setKey_self, Option.some_bind]

theorem writeSlotsLoop_slot {K : Type} [Field K] (device : String)
    (getData : String → ℕ → Option AnnotatorOutput) (name : String) :
    ∀ (ids : List ℕ) (d : CameraData K) (name' : String) (j : ℕ),
      bufferSlot (writeSlotsLoop device getData name d ids).1.output name' j
          = bufferSlot d.output name' j ∨
        ∃ out, getData name' j = some out ∧
          bufferSlot (writeSlotsLoop device getData name d ids).1.output name' j
            = some (processAnnotatorOutput device out).1
  | [], _, _, _ => Or.inl rfl
  | i :: rest, d, name', j => by
    cases hg : getData name i with
    | none =>
      refine Or.inl ?_
      simp only [writeSlotsLoop, hg]
    | some out =>
      simp only [writeSlotsLoop, hg]
      have ih := writeSlotsLoop_slot device getData name rest
        { d with
            output := setBufferSlot d.output name i (processAnnotatorOutput device out).1
            info := Function.update d.info i
              (Function.update (d.info i) name (processAnnotatorOutput device out).2) }
        name' j
      by_cases hn : name' = name
      · by_cases hj : j = i
        · subst hn; subst hj
          rcases ih with ih | ⟨o, ho, hr⟩
          · rw [ih]
            rcases bufferSlot_set_self d.output name' j
                (processAnnotatorOutput device out).1 with hs | hs
            · exact Or.inr ⟨out, hg, hs⟩
            · exact Or.inl hs
          · exact Or.inr ⟨o, ho, hr⟩
        · rcases ih with ih | ⟨o, ho, hr⟩
          · subst hn
            rw [ih, bufferSlot_set_ne_idx _ _ _ _ _ hj]
            exact Or.inl rfl
          · exact Or.inr ⟨o, ho, hr⟩
      · rcases ih with ih | ⟨o, ho, hr⟩
        · rw [ih, bufferSlot_set_ne_name _ _ _ _ _ _ hn]
          exact Or.inl rfl
        · exact Or.inr ⟨o, ho, hr⟩

theorem writeTypesLoop_slot {K : Type} [Field K] (device : String)
    (getData : String → ℕ → Option AnnotatorOutput) (envIds : List ℕ) :
    ∀ (types : List String) (d : CameraData K) (name' : String) (j : ℕ),
      bufferSlot (writeTypesLoop device getData envIds d types).1.output name' j
          = bufferSlot d.output name' j ∨
        ∃ out, getData name' j = some out ∧
          bufferSlot (writeTypesLoop device getData envIds d types).1.output name' j
            = some (processAnnotatorOutput device out).1
  | [], _, _, _ => Or.inl rfl
  | name :: rest, d, name', j => by
    simp only [writeTypesLoop]
    by_cases hr : (writeSlotsLoop device getData name d envIds).2 = true
    · simp only [hr, if_true]
      exact writeSlotsLoop_slot device getData name envIds d name' j
    · simp only [hr, if_false, Bool.false_eq_true]
      rcases writeTypesLoop_slot device getData envIds rest
          (writeSlotsLoop device getData name d envIds).1 name' j with ih | ⟨o, ho, hri⟩
      · rcases writeSlotsLoop_slot device getData name envIds d name' j with h1 | ⟨o, ho, h1⟩
        · exact Or.inl (ih.trans h1)
        · exact Or.inr ⟨o, ho, ih.trans h1⟩
      · exact Or.inr ⟨o, ho, hri⟩

theorem collectLoop_output {K : Type} [Field K] (device : String)
    (getData : String → ℕ → Option AnnotatorOutput) (name : String) :
    ∀ (ids : List ℕ) (d : CameraData K) (acc : List TorchTensor),
      (collectLoop device getData name d acc ids).1.output = d.output
  | [], _, _ => rfl
  | i :: rest, d, acc => by
    cases hg : getData name i with
    | none => simp only [collectLoop, hg]
    | some out =>
      simp only [collectLoop, hg]
      exact collectLoop_output device getData name rest _ _

theorem collectLoop_success {K : Type} [Field K] (device : String)
    (getData : String → ℕ → Option AnnotatorOutput) (name : String) :
    ∀ (ids : List ℕ) (d : CameraData K) (acc : List TorchTensor),
      (∀ i ∈ ids, (getData name i).isSome = true) →
      ∃ lst, (collectLoop device getData name d acc ids).2 = some lst ∧
        lst.length = acc.length + ids.length
  | [], _, acc, _ => ⟨acc, rfl, by simp⟩
  | i :: rest, d, acc, h => by
    have hi := h i (List.mem_cons_self i rest)
    cases hg : getData name i with
    | none => rw [hg] at hi; simp at hi
    | some out =>
      simp only [collectLoop, hg]
      obtain ⟨lst, h1, h2⟩ := collectLoop_success device getData name rest
        { d with
            info := Function.update d.info i
              (Function.update (d.info i) name (processAnnotatorOutput device out).2) }
        (acc ++ [(processAnnotatorOutput device out).1])
        (fun x hx => h x (List.mem_cons_of_mem i hx))
      refine ⟨lst, h1, ?_⟩
      simp only [List.length_append, List.length_singleton, List.length_cons,
        List.length_nil] at h2 ⊢
      omega

theorem createAnnotatorData_spec {K : Type} [Field K] (device : String)
    (getData : String → ℕ → Option AnnotatorOutput) (count : ℕ) :
    ∀ (types : List String) (d : CameraData K),
      (∀ name ∈ types, ∀ i ∈ List.range count, (getData name i).isSome = true) →
      (createAnnotatorData device getData count d types).2 = false ∧
      ∀ T : String,
        (T ∈ types → ∃ buf,
          lookupKey (createAnnotatorData device getData count d types).1.output T
            = some buf ∧ buf.length = count) ∧
        (T ∉ types →
          lookupKey (createAnnotatorData device getData count d types).1.output T
            = lookupKey d.output T)
  | [], _, _ => ⟨rfl, fun T => ⟨fun hT => absurd hT (List.not_mem_nil T), fun _ => rfl⟩⟩
  | name :: rest, d, h => by
    obtain ⟨lst, h1, h2⟩ := collectLoop_success device getData name (List.range count) d []
      (h name (List.mem_cons_self name rest))
    have hrest : ∀ nm ∈ rest, ∀ i ∈ List.range count, (getData nm i).isSome = true :=
      fun nm hnm => h nm (List.mem_cons_of_mem name hnm)
    obtain ⟨hflag, hT⟩ := createAnnotatorData_spec device getData count rest
      { (collectLoop device getData name d [] (List.range count)).1 with
          output := setKey (collectLoop device getData name d [] (List.range count)).1.output
            name lst } hrest
    have hlen : lst.length = count := by
      simpa using h2
    simp only [createAnnotatorData, h1]
    refine ⟨hflag, fun T => ⟨?_, ?_⟩⟩
    · intro hTmem
      by_cases hTrest : T ∈ rest
      · exact (hT T).1 hTrest
      · have hTname : T = name := by
          rcases List.mem_cons.mp hTmem with h' | h'
          · exact h'
          · exact absurd h' hTrest
        subst hTname
        refine ⟨lst, ?_, hlen⟩
        rw [(hT T).2 hTrest]
        simp [lookupKey_setKey_self]
    · intro hTmem
      have hTname : T ≠ name := fun h' => hTmem (List.mem_cons.mpr (Or.inl h'))
      have hTrest : T ∉ rest := fun h' => hTmem (List.mem_cons.mpr (Or.inr h'))
      rw [(hT T).2 hTrest]
      simp [lookupKey_setKey_ne _ _ _ _ hTname,
        collectLoop_output device getData name (List.range count) d []]

/-! ## Claim theorems -/

/-- Claim C9: every payload returned by the capture backend's `get_data`
is normalized by the processing step into a uniform (data, info) pair —
a structured mapping yields its `data` and `info` fields, any other
payload yields itself with no info — and in both cases the data
component is staged onto the batch's designated compute device. -/
theorem claim_C9_process_normalizes (device : String) (out : AnnotatorOutput) :
    processAnnotatorOutput device out
        = (convertToTorch (payloadData out) device, payloadInfo out) ∧
      (processAnnotatorOutput device out).1.device = device := by
  cases out <;>
    simp [processAnnotatorOutput, payloadData, payloadInfo, convertToTorch]

/-- Claim C4: for every focal length `f > 0` and horizontal aperture
`a > 0` (square-pixel, centered case), computing the intrinsic matrix
from `f`, `a`, height, width as done at refresh and then setting lens
parameters from that matrix with the same chosen focal length `f`
reproduces the horizontal aperture `a` (exactly, over the reals). -/
theorem claim_C4_intrinsics_roundtrip (m : Mat3 ℝ) (f a : ℝ)
    (height width : ℕ) (hf : 0 < f) (ha : 0 < a) (hw : 0 < width) :
    (setIntrinsicParams
        (updateIntrinsicEntries ⟨Real.arctan, Real.tan⟩ m ⟨f, a⟩ height width)
        f (height : ℝ) (width : ℝ)).horizontal_aperture = a := by
  have hf' : f ≠ 0 := ne_of_gt hf
  have ha' : a ≠ 0 := ne_of_gt ha
  have hw' : (width : ℝ) ≠ 0 := ne_of_gt (by exact_mod_cast hw)
  simp only [setIntrinsicParams, updateIntrinsicEntries]
  have harg : (2 : ℝ) * Real.arctan (a / (2 * f)) / 2 = Real.arctan (a / (2 * f)) := by
    ring
  rw [harg, Real.tan_arctan]
  have h05 : (0.5 : ℝ) = 1 / 2 := by norm_num
  rw [h05]
  field_simp
  ring

/-- Witness for claim C4 at `f = 1`, `a = 2`, height 3, width 4. -/
theorem claim_C4_witness :
    (0 : ℝ) < 1 ∧ (0 : ℝ) < 2 ∧ 0 < 4 ∧
    (setIntrinsicParams
        (updateIntrinsicEntries ⟨Real.arctan, Real.tan⟩ Mat3.zero ⟨1, 2⟩ 3 4)
        1 ((3 : ℕ) : ℝ) ((4 : ℕ) : ℝ)).horizontal_aperture = 2 :=
  ⟨by norm_num, by norm_num, by norm_num,
    claim_C4_intrinsics_roundtrip Mat3.zero 1 2 3 4
      (by norm_num) (by norm_num) (by norm_num)⟩

/-- Claim C5: for every slot `i` requested in a refresh, the recomputed
intrinsic matrix for slot `i` equals the matrix with
`M[0,0] = M[1,1] = width·0.5/tan(fov/2)` where
`fov = 2·atan(horizontalAperture/(2·focalLength))` is read from slot
`i`'s current lens state, `M[0,2] = width/2`, `M[1,2] = height/2`,
`M[2,2] = 1`, and all other entries zero (the latter assuming the stored
matrix's never-written entries are zero, as established at buffer
creation and preserved by every refresh). -/
theorem claim_C5_intrinsic_matrix (cam : Cam ℝ) (envIds : List ℕ)
    (d : CameraData ℝ) (i : ℕ) (hi : i ∈ envIds)
    (h01 : (d.intrinsic_matrices i).m01 = 0)
    (h10 : (d.intrinsic_matrices i).m10 = 0)
    (h20 : (d.intrinsic_matrices i).m20 = 0)
    (h21 : (d.intrinsic_matrices i).m21 = 0) :
    (updateIntrinsicMatrices ⟨Real.arctan, Real.tan⟩ cam envIds d).intrinsic_matrices i
      = claimedIntrinsicMatrix ⟨Real.arctan, Real.tan⟩
          (cam.lensOf i).focal_length (cam.lensOf i).horizontal_aperture
          cam.height cam.width := by
  have hup := overwriteSlots_apply
    (fun j prev => updateIntrinsicEntries (⟨Real.arctan, Real.tan⟩ : FloatMath ℝ)
      prev (cam.lensOf j) cam.height cam.width)
    (fun j x => updateIntrinsicEntries_idem _ x _ _ _)
    envIds d.intrinsic_matrices i
  simp only [updateIntrinsicMatrices]
  rw [hup, if_pos hi]
  simp only [updateIntrinsicEntries, claimedIntrinsicMatrix, Mat3.mk.injEq,
    h01, h10, h20, h21]
  norm_num
  constructor <;> ring

/-- Witness for claim C5 at a one-slot batch with lens state
(focal length 24, aperture 20), image shape 3×4, refreshing slot 0 from
the freshly created (zeroed) buffers. -/
theorem claim_C5_witness :
    (0 : ℕ) ∈ [0] ∧
    (updateIntrinsicMatrices ⟨Real.arctan, Real.tan⟩
        (⟨"cpu", 3, 4, 1, [⟨24, 20⟩], ["rgb"]⟩ : Cam ℝ) [0]
        (createBuffers (⟨"cpu", 3, 4, 1, [⟨24, 20⟩], ["rgb"]⟩ : Cam ℝ)).data).intrinsic_matrices 0
      = claimedIntrinsicMatrix ⟨Real.arctan, Real.tan⟩
          ((⟨"cpu", 3, 4, 1, [⟨24, 20⟩], ["rgb"]⟩ : Cam ℝ).lensOf 0).focal_length
          ((⟨"cpu", 3, 4, 1, [⟨24, 20⟩], ["rgb"]⟩ : Cam ℝ).lensOf 0).horizontal_aperture
          3 4 :=
  ⟨by decide,
    claim_C5_intrinsic_matrix ⟨"cpu", 3, 4, 1, [⟨24, 20⟩], ["rgb"]⟩ [0]
      (createBuffers ⟨"cpu", 3, 4, 1, [⟨24, 20⟩], ["rgb"]⟩).data 0
      (by decide) rfl rfl rfl rfl⟩

/-- Claim C1 (amended): for every slot refreshed by the per-step pose
update, the stored `quat_w_world` orientation equals the pose pulled
from the scene graph with its orientation converted from the backend's
native `opengl` convention to the WORLD-frame convention
(forward = +X, up = +Z) — not the robotics convention — and the stored
position equals the pulled position unchanged. -/
theorem claim_C1_amended {K : Type} [Field K] (prims : List (LensParams K))
    (view : ViewState K) (envIds : List ℕ) (d : CameraData K) (i : ℕ)
    (hp : prims ≠ []) (hi : i ∈ envIds) :
    Except.map (fun d' => d'.pos_w i) (updatePoses prims view envIds d)
        = .ok (view.pos i) ∧
      Except.map (fun d' => d'.quat_w_world i) (updatePoses prims view envIds d)
        = .ok (convertOrientationConvention (view.quat i) .opengl .world) := by
  cases prims with
  | nil => exact absurd rfl hp
  | cons p ps => constructor <;> simp [updatePoses, Except.map, hi]

/-- Witness for the amended claim C1: a one-slot refresh through
`updatePoses` on concrete data. -/
theorem claim_C1_witness :
    camA.prims ≠ [] ∧ (0 : ℕ) ∈ [0] ∧
    Except.map (fun d' => d'.pos_w 0) (updatePoses camA.prims viewA [0] stA.data)
        = .ok (viewA.pos 0) ∧
      Except.map (fun d' => d'.quat_w_world 0) (updatePoses camA.prims viewA [0] stA.data)
        = .ok (convertOrientationConvention (viewA.quat 0) .opengl .world) :=
  ⟨by simp [camA], by decide,
    claim_C1_amended camA.prims viewA [0] stA.data 0 (by simp [camA]) (by decide)⟩

/-- Counterexample for claim C1 as stated: at the identity input
orientation, the orientation stored by the pose update is the
`opengl → world` conversion of the pulled orientation, and it differs
from the `opengl → ros` (robotics-convention) conversion of that same
pulled orientation — so the stored orientation is NOT the
robotics-convention one the claim names. -/
theorem claim_C1_counterexample :
    Except.map (fun d' : CameraData ℝ => d'.quat_w_world 0)
        (updatePoses [⟨24, 20⟩] ⟨1, fun _ => ⟨1, 2, 3⟩, fun _ => Mat3.id⟩ [0]
          (createBuffers (⟨"cpu", 3, 4, 1, [⟨24, 20⟩], ["rgb"]⟩ : Cam ℝ)).data)
        = .ok (convertOrientationConvention Mat3.id .opengl .world) ∧
      Except.map (fun d' : CameraData ℝ => d'.quat_w_world 0)
        (updatePoses [⟨24, 20⟩] ⟨1, fun _ => ⟨1, 2, 3⟩, fun _ => Mat3.id⟩ [0]
          (createBuffers (⟨"cpu", 3, 4, 1, [⟨24, 20⟩], ["rgb"]⟩ : Cam ℝ)).data)
        ≠ .ok (convertOrientationConvention Mat3.id .opengl .ros) := by
  have h1 : (convertOrientationConvention (Mat3.id (K := ℝ)) .opengl .world).m01 = -1 := by
    simp only [convertOrientationConvention,
      if_neg (by decide : ¬ (Convention.opengl = Convention.world))]
    norm_num [Convention.basis, Convention.forwardAxis, Convention.upAxis,
      Vec3.cross, Mat3.ofCols, Mat3.mul, Mat3.transpose, Mat3.id]
  have h2 : (convertOrientationConvention (Mat3.id (K := ℝ)) .opengl .ros).m01 = 0 := by
    simp only [convertOrientationConvention,
      if_neg (by decide : ¬ (Convention.opengl = Convention.ros))]
    norm_num [Convention.basis, Convention.forwardAxis, Convention.upAxis,
      Vec3.cross, Mat3.ofCols, Mat3.mul, Mat3.transpose, Mat3.id]
  constructor
  · simp [updatePoses, Except.map]
  · intro hEq
    simp only [updatePoses, Except.map, Except.ok.injEq] at hEq
    have hfn : convertOrientationConvention (Mat3.id (K := ℝ)) .opengl .world
        = convertOrientationConvention Mat3.id .opengl .ros := by
      simpa using hEq
    rw [hfn, h2] at h1
    norm_num at h1

/-- Claim C6: for every requested slot set `S`, `reset(S)` zeroes the
frame counter of every slot in `S`, leaves the frame counter of every
slot not in `S` unchanged, leaves every output-type buffer unchanged,
and recomputes pose (position pulled from the view; orientation the
`opengl → world` conversion of the pulled orientation) and intrinsics
(recomputed from the slot's current lens state) for the slots in `S`. -/
theorem claim_C6_reset {K : Type} [Field K] (fm : FloatMath K) (cam : Cam K)
    (view : ViewState K) (S : List ℕ) (st : CameraState K)
    (hp : cam.prims ≠ []) :
    (camReset fm cam view (some S) st).2 = none ∧
    (∀ i ∈ S, (camReset fm cam view (some S) st).1.frame i = 0) ∧
    (∀ i, i ∉ S → (camReset fm cam view (some S) st).1.frame i = st.frame i) ∧
    (camReset fm cam view (some S) st).1.data.output = st.data.output ∧
    (∀ i ∈ S,
      (camReset fm cam view (some S) st).1.data.pos_w i = view.pos i ∧
      (camReset fm cam view (some S) st).1.data.quat_w_world i
        = convertOrientationConvention (view.quat i) .opengl .world ∧
      (camReset fm cam view (some S) st).1.data.intrinsic_matrices i
        = updateIntrinsicEntries fm (st.data.intrinsic_matrices i)
            (cam.lensOf i) cam.height cam.width) := by
  obtain ⟨dev, hh, ww, cnt, prims, types⟩ := cam
  cases prims with
  | nil => exact absurd rfl hp
  | cons p ps =>
    refine ⟨rfl, ?_, ?_, rfl, ?_⟩
    · intro i hi
      simp [camReset, updatePoses, hi]
    · intro i hi
      simp [camReset, updatePoses, hi]
    · intro i hi
      refine ⟨?_, ?_, ?_⟩
      · simp [camReset, updatePoses, updateIntrinsicMatrices, hi]
      · simp [camReset, updatePoses, updateIntrinsicMatrices, hi]
      · have hup := overwriteSlots_apply
          (fun j prev => updateIntrinsicEntries fm prev
            ((⟨dev, hh, ww, cnt, p :: ps, types⟩ : Cam K).lensOf j) hh ww)
          (fun j x => updateIntrinsicEntries_idem _ x _ _ _) S
        simp only [camReset, updatePoses, updateIntrinsicMatrices, Option.getD]
        rw [hup, if_pos hi]

/-- Witness for claim C6: resetting slot 1 of a concrete two-slot batch
zeroes slot 1's frame counter, keeps slot 0's counter, and keeps the
output buffers. -/
theorem claim_C6_witness :
    camA.prims ≠ [] ∧ (1 : ℕ) ∈ [1] ∧ (0 : ℕ) ∉ ([1] : List ℕ) ∧
    (camReset idFM camA viewA (some [1]) stA).1.frame 1 = 0 ∧
    (camReset idFM camA viewA (some [1]) stA).1.frame 0 = stA.frame 0 ∧
    (camReset idFM camA viewA (some [1]) stA).1.data.output = stA.data.output :=
  ⟨by simp [camA], by decide, by decide,
    (claim_C6_reset idFM camA viewA [1] stA (by simp [camA])).2.1 1 (by decide),
    (claim_C6_reset idFM camA viewA [1] stA (by simp [camA])).2.2.1 0 (by decide),
    (claim_C6_reset idFM camA viewA [1] stA (by simp [camA])).2.2.2.1⟩

/-- Claim C10: in `set_world_poses`, a `None` positions argument leaves
all slots' positions unchanged, a `None` orientations argument leaves
all slots' orientations unchanged, and a `None` slot-index argument
addresses all `N` slots (whose poses are then written — positions as
given, orientations converted from the caller's convention to the
backend-native `opengl` convention). -/
theorem claim_C10_set_world_poses {K : Type} [Field K] (cam : Cam K)
    (vs : ViewState K) (positions : Option (ℕ → Vec3 K))
    (orientations : Option (ℕ → Mat3 K)) (envIds? : Option (List ℕ))
    (conv : Convention) :
    (positions = none → ∀ i,
      (setWorldPoses cam vs positions orientations envIds? conv).pos i = vs.pos i) ∧
    (orientations = none → ∀ i,
      (setWorldPoses cam vs positions orientations envIds? conv).quat i = vs.quat i) ∧
    (envIds? = none → ∀ p q, positions = some p → orientations = some q →
      ∀ i, i < cam.count →
        (setWorldPoses cam vs positions orientations envIds? conv).pos i = p i ∧
        (setWorldPoses cam vs positions orientations envIds? conv).quat i
          = convertOrientationConvention (q i) conv .opengl) := by
  refine ⟨?_, ?_, ?_⟩
  · rintro rfl i
    simp [setWorldPoses, viewSetWorldPoses]
  · rintro rfl i
    simp [setWorldPoses, viewSetWorldPoses]
  · rintro rfl p q rfl rfl i hi
    constructor <;>
      simp [setWorldPoses, viewSetWorldPoses, List.mem_range, hi]

/-- Witness for claim C10: with `None` positions, a concrete call
leaves slot 0's position unchanged. -/
theorem claim_C10_witness :
    (none : Option (ℕ → Vec3 ℚ)) = none ∧
    (setWorldPoses camA viewA none (some fun _ => Mat3.id) none .ros).pos 0
      = viewA.pos 0 :=
  ⟨rfl,
    (claim_C10_set_world_poses camA viewA none (some fun _ => Mat3.id) none .ros).1
      rfl 0⟩

/-- Claim C3: the output mapping has no key before the first refresh
after initialization (buffer creation leaves it empty), and the first
refresh whose output mapping is empty allocates, without error, buffers
for ALL requested output types across ALL `N` slots in one pass (each
resulting buffer has leading dimension `N`), regardless of which slot
indices `envIds` were requested for that refresh. -/
theorem claim_C3_lazy_allocation {K : Type} [Field K] (fm : FloatMath K)
    (cam : Cam K) (view : ViewState K)
    (getData : String → ℕ → Option AnnotatorOutput) (envIds : List ℕ)
    (st : CameraState K) (hout : st.data.output = []) (hp : cam.prims ≠ [])
    (hcap : ∀ name ∈ cam.dataTypes, ∀ i ∈ List.range cam.count,
      (getData name i).isSome = true) :
    (∀ T, lookupKey (createBuffers cam).data.output T = none) ∧
    (updateBuffersImpl fm cam view getData envIds st).2 = none ∧
    (∀ T ∈ cam.dataTypes, ∃ buf,
      lookupKey (updateBuffersImpl fm cam view getData envIds st).1.data.output T
        = some buf ∧ buf.length = cam.count) := by
  obtain ⟨dev, hh, ww, cnt, prims, types⟩ := cam
  cases prims with
  | nil => exact absurd rfl hp
  | cons p ps =>
    refine ⟨fun T => rfl, ?_, ?_⟩
    · simp only [updateBuffersImpl, updateIntrinsicMatrices, updatePoses, hout,
        List.isEmpty_nil, if_true]
      rw [(createAnnotatorData_spec dev getData cnt types _ hcap).1]
      rfl
    · intro T hT
      simp only [updateBuffersImpl, updateIntrinsicMatrices, updatePoses, hout,
        List.isEmpty_nil, if_true]
      exact ((createAnnotatorData_spec dev getData cnt types _ hcap).2 T).1 hT

/-- Witness for claim C3: a first refresh of a concrete two-slot batch
requesting only slot 0 starts from an empty output mapping and
completes with no error (bulk-allocating all buffers). -/
theorem claim_C3_witness :
    (createBuffers camA).data.output = [] ∧ camA.prims ≠ [] ∧
    (updateBuffersImpl idFM camA viewA getDataAll [0] (createBuffers camA)).2 = none :=
  ⟨rfl, by simp [camA],
    (claim_C3_lazy_allocation idFM camA viewA getDataAll [0] (createBuffers camA)
      rfl (by simp [camA]) (fun _ _ _ _ => rfl)).2.1⟩

/-- Claim C2 (amended): during a refresh over already-allocated output
buffers, every output-buffer slot holds, afterwards, either its previous
value or the value freshly captured and processed for that very slot in
this refresh — never data from another slot or corrupted data. In
particular, when the capture backend raises on slot `k`, the slots not
yet reached keep their previous values, while slots written before the
failure hold their own freshly captured values (so a slot `j ≠ k`
processed before `k` need NOT retain its previous value, contrary to the
claim as stated). -/
theorem claim_C2_amended {K : Type} [Field K] (fm : FloatMath K) (cam : Cam K)
    (view : ViewState K) (getData : String → ℕ → Option AnnotatorOutput)
    (envIds : List ℕ) (st : CameraState K) (name : String) (j : ℕ)
    (hout : st.data.output ≠ []) :
    bufferSlot (updateBuffersImpl fm cam view getData envIds st).1.data.output name j
        = bufferSlot st.data.output name j ∨
      ∃ out, getData name j = some out ∧
        bufferSlot (updateBuffersImpl fm cam view getData envIds st).1.data.output name j
          = some (processAnnotatorOutput cam.device out).1 := by
  obtain ⟨dev, hh, ww, cnt, prims, types⟩ := cam
  cases prims with
  | nil => exact Or.inl rfl
  | cons p ps =>
    obtain ⟨a, l, he⟩ := List.exists_cons_of_ne_nil hout
    have hie : st.data.output.isEmpty = false := by rw [he]; rfl
    simp only [updateBuffersImpl, updateIntrinsicMatrices, updatePoses, hie,
      Bool.false_eq_true, if_false]
    exact writeTypesLoop_slot dev getData envIds types _ name j

/-- Witness for the amended claim C2: a refresh on already-allocated
buffers where the capture of slot 1 fails; slot 0's final value is its
previous value or its freshly captured one. -/
theorem claim_C2_witness :
    stA.data.output ≠ [] ∧
    (bufferSlot (updateBuffersImpl idFM camA viewA getDataFail1 [0, 1] stA).1.data.output
          "rgb" 0
        = bufferSlot stA.data.output "rgb" 0 ∨
      ∃ out, getDataFail1 "rgb" 0 = some out ∧
        bufferSlot (updateBuffersImpl idFM camA viewA getDataFail1 [0, 1] stA).1.data.output
            "rgb" 0
          = some (processAnnotatorOutput camA.device out).1) :=
  ⟨by decide,
    claim_C2_amended idFM camA viewA getDataFail1 [0, 1] stA "rgb" 0 (by decide)⟩

/-- Counterexample for claim C2 as stated: with the `"rgb"` buffer
already allocated (slot 0 holding 7, slot 1 holding 9), a refresh of
slots [0, 1] in which the backend raises while fetching slot 1's data
surfaces a capture error, yet slot 0 — a slot different from the failing
one — does NOT retain its previously written value: it has been
overwritten with the freshly captured value before the failure. -/
theorem claim_C2_counterexample :
    getDataFail1 "rgb" 1 = none ∧
    (updateBuffersImpl idFM camA viewA getDataFail1 [0, 1] stA).2
      = some StepError.capture ∧
    bufferSlot stA.data.output "rgb" 0 = some ⟨7, "cpu"⟩ ∧
    bufferSlot (updateBuffersImpl idFM camA viewA getDataFail1 [0, 1] stA).1.data.output
        "rgb" 0
      = some ⟨5, "cuda:0"⟩ := by
  decide

/-- Claim C7 (amended): for every configuration whose requested output
types include an unsupported structured (bounding-box) type,
construction fails before any scene-graph entity resolution is
performed — the result is the same for every scene graph: a
ValueError-class ConfigurationError when the path's leaf segment is not
a wildcard, and the leaf-wildcard RuntimeError (which is checked first)
otherwise; in both cases the pipeline does not reach the ready state. -/
theorem claim_C7_amended {K : Type} [Field K] (cfg : CameraCfg)
    (scene : SceneGraph K) (numEnvs : ℕ) (device : String)
    (hu : hasUnsupportedTypes cfg.data_types = true) :
    (leafIsRegex cfg.prim_path = false →
      isValueError (cameraInit cfg scene numEnvs device) = true) ∧
    (leafIsRegex cfg.prim_path = true →
      isRuntimeError (cameraInit cfg scene numEnvs device) = true) ∧
    reachedReady (cameraInit cfg scene numEnvs device) = false := by
  by_cases hl : leafIsRegex cfg.prim_path = true
  · refine ⟨fun h => ?_, fun _ => ?_, ?_⟩
    · rw [h] at hl
      exact absurd hl (by simp)
    · simp [cameraInit, hl, isRuntimeError]
    · simp [cameraInit, hl, reachedReady]
  · have hl' : leafIsRegex cfg.prim_path = false := by
      simpa using hl
    refine ⟨fun _ => ?_, fun h => absurd h hl, ?_⟩
    · simp [cameraInit, hl', hu, isValueError]
    · simp [cameraInit, hl', hu, reachedReady]

/-- Witness for the amended claim C7: a configuration with a well-formed
leaf requesting `"bounding_box_3d"` fails with a ValueError-class error
(shown against a scene graph that resolves nothing, which is never
consulted). -/
theorem claim_C7_witness :
    hasUnsupportedTypes cfgGoodPathBadTypes.data_types = true ∧
    leafIsRegex cfgGoodPathBadTypes.prim_path = false ∧
    isValueError (cameraInit cfgGoodPathBadTypes emptyScene 4 "cpu") = true :=
  ⟨by decide, by decide,
    (claim_C7_amended cfgGoodPathBadTypes emptyScene 4 "cpu" (by decide)).1 (by decide)⟩

/-- Counterexample for claim C7 as stated: a configuration requesting
the unsupported `"bounding_box_3d"` type whose prim path also has a
wildcard leaf fails with the RuntimeError-class leaf-wildcard error,
not with a ValueError-class error, because the leaf check runs first. -/
theorem claim_C7_counterexample :
    hasUnsupportedTypes cfgBadPathBadTypes.data_types = true ∧
    isValueError (cameraInit cfgBadPathBadTypes emptyScene 4 "cpu") = false ∧
    isRuntimeError (cameraInit cfgBadPathBadTypes emptyScene 4 "cpu") = true := by
  decide

/-- Claim C8 (amended): construction/initialization raises a
RuntimeError-class error — and the pipeline does not reach the ready
state — when the configured path pattern has a wildcard leaf segment
(unconditionally), and, provided no unsupported output type is requested
(otherwise the earlier ValueError-class check preempts it), when zero
scene-graph entities match, when the resolved count differs from the
expected environment count, or when a resolved entity is not
camera-typed. -/
theorem claim_C8_amended {K : Type} [Field K] (cfg : CameraCfg)
    (scene : SceneGraph K) (numEnvs : ℕ) (device : String) :
    (leafIsRegex cfg.prim_path = true →
      isRuntimeError (cameraInit cfg scene numEnvs device) = true ∧
      reachedReady (cameraInit cfg scene numEnvs device) = false) ∧
    (hasUnsupportedTypes cfg.data_types = false →
      (scene.resolve cfg.prim_path = [] ∨
        (scene.resolve cfg.prim_path).length ≠ numEnvs ∨
        ∃ prim ∈ scene.resolve cfg.prim_path, prim.isCamera = false) →
      isRuntimeError (cameraInit cfg scene numEnvs device) = true ∧
      reachedReady (cameraInit cfg scene numEnvs device) = false) := by
  constructor
  · intro hl
    constructor <;> simp [cameraInit, hl, isRuntimeError, reachedReady]
  · intro hu hcond
    unfold cameraInit
    split_ifs with h1 h2 h3 h4 h5
    · exact ⟨rfl, rfl⟩
    · rw [hu] at h2
      exact absurd h2 (by simp)
    · exact ⟨rfl, rfl⟩
    · exact ⟨rfl, rfl⟩
    · exact ⟨rfl, rfl⟩
    · exfalso
      rcases hcond with hz | hc | ⟨prim, hpm, hpc⟩
      · exact h3 (by simp [hz])
      · exact hc (by omega)
      · exact h5 (List.any_eq_true.mpr ⟨prim, hpm, by simp [hpc]⟩)

/-- Witness for the amended claim C8: with supported types and a scene
graph resolving zero entities, initialization fails with a
RuntimeError-class error and the pipeline is not ready. -/
theorem claim_C8_witness :
    hasUnsupportedTypes cfgGoodPathRGB.data_types = false ∧
    emptyScene.resolve cfgGoodPathRGB.prim_path = [] ∧
    (isRuntimeError (cameraInit cfgGoodPathRGB emptyScene 4 "cpu") = true ∧
      reachedReady (cameraInit cfgGoodPathRGB emptyScene 4 "cpu") = false) :=
  ⟨by decide, rfl,
    (claim_C8_amended cfgGoodPathRGB emptyScene 4 "cpu").2 (by decide) (Or.inl rfl)⟩

/-- Counterexample for claim C8 as stated: a configuration requesting an
unsupported type against a scene graph with zero matching entities —
zero entities match, yet the raised error is ValueError-class (the
unsupported-type check fires before resolution), not RuntimeError-class
as the claim requires. -/
theorem claim_C8_counterexample :
    emptyScene.resolve cfgGoodPathBadTypes.prim_path = [] ∧
    isRuntimeError (cameraInit cfgGoodPathBadTypes emptyScene 4 "cpu") = false ∧
    isValueError (cameraInit cfgGoodPathBadTypes emptyScene 4 "cpu") = true := by
  decide
